import Mathlib

set_option maxRecDepth 4000
set_option maxHeartbeats 1000000

/-! Shallow embedding of the ms-teams-ws crate (src/lib.rs, src/messages.rs,
src/types.rs): a JSON wire model standing in for serde_json, the message
data types with their serde text encoding, and the TeamsWebsocket connection
wrapper as an explicit state machine whose transport outcomes are passed in
as event parameters. -/

/-- JSON values as produced and consumed by serde_json for this wire
vocabulary (all numbers on this wire are integers). Objects keep their
fields in input order, duplicates included. -/
inductive Json where
  | null : Json
  | bool (b : Bool) : Json
  | num (n : Int) : Json
  | str (s : String) : Json
  | arr (items : List Json) : Json
  | obj (fields : List (String × Json)) : Json

/-- Lowercase hex digit, used for control-character escapes. -/
def hexDigit (n : Nat) : Char :=
  if n < 10 then Char.ofNat (48 + n) else Char.ofNat (87 + n)

/-- serde_json string escaping: quote, backslash, and the control characters. -/
def escapeJsonChar (c : Char) : String :=
  if c = '"' then "\\\""
  else if c = '\\' then "\\\\"
  else if c = '\x08' then "\\b"
  else if c = '\x09' then "\\t"
  else if c = '\x0a' then "\\n"
  else if c = '\x0c' then "\\f"
  else if c = '\x0d' then "\\r"
  else if c.toNat < 32 then
    "\\u00" ++ String.singleton (hexDigit (c.toNat / 16))
      ++ String.singleton (hexDigit (c.toNat % 16))
  else String.singleton c

/-- A JSON string literal with its surrounding quotes, serde_json style. -/
def encodeJsonString (s : String) : String :=
  "\"" ++ String.join (s.data.map escapeJsonChar) ++ "\""

mutual

/-- Compact rendering, exactly the output of serde_json::to_string. -/
def Json.render : Json → String
  | .null => "null"
  | .bool true => "true"
  | .bool false => "false"
  | .num n => toString n
  | .str s => encodeJsonString s
  | .arr items => "[" ++ Json.renderItems items ++ "]"
  | .obj fields => "\x7b" ++ Json.renderFields fields ++ "\x7d"

/-- Comma-separated rendering of array items. -/
def Json.renderItems : List Json → String
  | [] => ""
  | [j] => Json.render j
  | j :: rest => Json.render j ++ "," ++ Json.renderItems rest

/-- Comma-separated rendering of object members. -/
def Json.renderFields : List (String × Json) → String
  | [] => ""
  | [(k, v)] => encodeJsonString k ++ ":" ++ Json.render v
  | (k, v) :: rest =>
      encodeJsonString k ++ ":" ++ Json.render v ++ "," ++ Json.renderFields rest

end

/-- Skip JSON whitespace. -/
def skipWs : List Char → List Char
  | [] => []
  | c :: rest =>
      if c = ' ' ∨ c = '\x09' ∨ c = '\x0a' ∨ c = '\x0d' then skipWs rest
      else c :: rest

/-- Value of one hex digit, if it is one. -/
def hexVal? (c : Char) : Option Nat :=
  if '0' ≤ c ∧ c ≤ '9' then some (c.toNat - 48)
  else if 'a' ≤ c ∧ c ≤ 'f' then some (c.toNat - 87)
  else if 'A' ≤ c ∧ c ≤ 'F' then some (c.toNat - 55)
  else none

/-- Parse the body of a JSON string after its opening quote, handling the
escape sequences serde_json accepts (surrogate pairs are not modelled: no
input in this development uses them). Returns the characters and the rest. -/
def parseStringChars : Nat → List Char → Option (List Char × List Char)
  | 0, _ => none
  | _, [] => none
  | fuel + 1, c :: rest =>
    if c = '"' then some ([], rest)
    else if c = '\\' then
      match rest with
      | [] => none
      | e :: rest2 =>
        let cont := fun (ch : Char) (rem : List Char) =>
          match parseStringChars fuel rem with
          | some (cs, rem2) => some (ch :: cs, rem2)
          | none => none
        if e = '"' then cont '"' rest2
        else if e = '\\' then cont '\\' rest2
        else if e = '/' then cont '/' rest2
        else if e = 'b' then cont '\x08' rest2
        else if e = 'f' then cont '\x0c' rest2
        else if e = 'n' then cont '\x0a' rest2
        else if e = 'r' then cont '\x0d' rest2
        else if e = 't' then cont '\x09' rest2
        else if e = 'u' then
          match rest2 with
          | h1 :: h2 :: h3 :: h4 :: rest3 =>
            match hexVal? h1, hexVal? h2, hexVal? h3, hexVal? h4 with
            | some a, some b, some c2, some d =>
              let n := ((a * 16 + b) * 16 + c2) * 16 + d
              if 0xD800 ≤ n ∧ n < 0xE000 then none
              else cont (Char.ofNat n) rest3
            | _, _, _, _ => none
          | _ => none
        else none
    else if c.toNat < 32 then none
    else
      match parseStringChars fuel rest with
      | some (cs, rem2) => some (c :: cs, rem2)
      | none => none

/-- Take a maximal run of decimal digits. -/
def takeDigits : List Char → (List Char × List Char)
  | [] => ([], [])
  | c :: rest =>
      if '0' ≤ c ∧ c ≤ '9' then
        let p := takeDigits rest
        (c :: p.1, p.2)
      else ([], c :: rest)

/-- Digits to a natural number. -/
def digitsToNat (acc : Nat) : List Char → Nat
  | [] => acc
  | c :: rest => digitsToNat (acc * 10 + (c.toNat - 48)) rest

/-- Parse a JSON integer (this wire vocabulary has no fractions or
exponents); leading zeros are rejected, as serde_json does. -/
def parseNumber (cs : List Char) : Option (Int × List Char) :=
  let p : Bool × List Char :=
    match cs with
    | c :: rest => if c = '-' then (true, rest) else (false, cs)
    | [] => (false, [])
  match takeDigits p.2 with
  | ([], _) => none
  | (ds, rem) =>
      if 1 < ds.length ∧ ds.head? = some '0' then none
      else
        let n : Int := Int.ofNat (digitsToNat 0 ds)
        some (if p.1 then -n else n, rem)

mutual

/-- Parse one JSON value; the fuel bounds the recursion depth and is
instantiated with the input length plus one, which always suffices since
every recursive step consumes at least one character. -/
def parseValue : Nat → List Char → Option (Json × List Char)
  | 0, _ => none
  | fuel + 1, cs =>
    match skipWs cs with
    | [] => none
    | c :: rest =>
      if c = 'n' then
        match rest with
        | 'u' :: 'l' :: 'l' :: rem => some (.null, rem)
        | _ => none
      else if c = 't' then
        match rest with
        | 'r' :: 'u' :: 'e' :: rem => some (.bool true, rem)
        | _ => none
      else if c = 'f' then
        match rest with
        | 'a' :: 'l' :: 's' :: 'e' :: rem => some (.bool false, rem)
        | _ => none
      else if c = '"' then
        match parseStringChars (rest.length + 1) rest with
        | some (chars, rem) => some (.str (String.mk chars), rem)
        | none => none
      else if c = '-' ∨ ('0' ≤ c ∧ c ≤ '9') then
        match parseNumber (c :: rest) with
        | some (n, rem) => some (.num n, rem)
        | none => none
      else if c.toNat = 123 then
        match skipWs rest with
        | d :: rem2 =>
          if d.toNat = 125 then some (.obj [], rem2)
          else
            match parseMembers fuel (d :: rem2) with
            | some (fields, rem3) => some (.obj fields, rem3)
            | none => none
        | [] => none
      else if c.toNat = 91 then
        match skipWs rest with
        | d :: rem2 =>
          if d.toNat = 93 then some (.arr [], rem2)
          else
            match parseItems fuel (d :: rem2) with
            | some (items, rem3) => some (.arr items, rem3)
            | none => none
        | [] => none
      else none

/-- Parse the members of a non-empty JSON object, up to and including the
closing brace. -/
def parseMembers : Nat → List Char → Option (List (String × Json) × List Char)
  | 0, _ => none
  | fuel + 1, cs =>
    match skipWs cs with
    | c :: rest =>
      if c = '"' then
        match parseStringChars (rest.length + 1) rest with
        | some (keyChars, rem) =>
          match skipWs rem with
          | ':' :: rem2 =>
            match parseValue fuel rem2 with
            | some (v, rem3) =>
              match skipWs rem3 with
              | ',' :: rem4 =>
                match parseMembers fuel rem4 with
                | some (fields, rem5) =>
                    some ((String.mk keyChars, v) :: fields, rem5)
                | none => none
              | d :: rem4 =>
                  if d.toNat = 125 then some ([(String.mk keyChars, v)], rem4)
                  else none
              | [] => none
            | none => none
          | _ => none
        | none => none
      else none
    | [] => none

/-- Parse the items of a non-empty JSON array, up to and including the
closing bracket. -/
def parseItems : Nat → List Char → Option (List Json × List Char)
  | 0, _ => none
  | fuel + 1, cs =>
    match parseValue fuel cs with
    | some (v, rem) =>
      match skipWs rem with
      | ',' :: rem2 =>
        match parseItems fuel rem2 with
        | some (items, rem3) => some (v :: items, rem3)
        | none => none
      | d :: rem2 => if d.toNat = 93 then some ([v], rem2) else none
      | [] => none
    | none => none

end

/-- serde_json::from_str front end: parse a complete JSON document. -/
def Json.parse (s : String) : Option Json :=
  match parseValue (s.length + 1) s.data with
  | some (j, rest) => if skipWs rest = [] then some j else none
  | none => none

/-- UTF-8 decoding exactly as std str::from_utf8 accepts it: continuation
bytes checked, overlong forms, surrogates and values above 0x10FFFF
rejected. -/
def utf8Decode? : List Nat → Option (List Char)
  | [] => some []
  | b :: rest =>
    if b < 128 then
      match utf8Decode? rest with
      | some cs => some (Char.ofNat b :: cs)
      | none => none
    else if b < 194 then none
    else if b < 224 then
      match rest with
      | c1 :: rest2 =>
        if 128 ≤ c1 ∧ c1 < 192 then
          match utf8Decode? rest2 with
          | some cs => some (Char.ofNat ((b - 192) * 64 + (c1 - 128)) :: cs)
          | none => none
        else none
      | [] => none
    else if b < 240 then
      match rest with
      | c1 :: c2 :: rest2 =>
        if (128 ≤ c1 ∧ c1 < 192) ∧ (128 ≤ c2 ∧ c2 < 192)
            ∧ (b ≠ 224 ∨ 160 ≤ c1) ∧ (b ≠ 237 ∨ c1 < 160) then
          match utf8Decode? rest2 with
          | some cs =>
              some (Char.ofNat (((b - 224) * 64 + (c1 - 128)) * 64 + (c2 - 128)) :: cs)
          | none => none
        else none
      | _ => none
    else if b < 245 then
      match rest with
      | c1 :: c2 :: c3 :: rest2 =>
        if (128 ≤ c1 ∧ c1 < 192) ∧ (128 ≤ c2 ∧ c2 < 192) ∧ (128 ≤ c3 ∧ c3 < 192)
            ∧ (b ≠ 240 ∨ 144 ≤ c1) ∧ (b ≠ 244 ∨ c1 < 144) then
          match utf8Decode? rest2 with
          | some cs =>
              some (Char.ofNat
                ((((b - 240) * 64 + (c1 - 128)) * 64 + (c2 - 128)) * 64 + (c3 - 128)) :: cs)
          | none => none
        else none
      | _ => none
    else none

/-! Message model, translated from src/messages.rs. Every type keeps its
source name; the serde attributes (rename_all = "camelCase" on every
container plus the explicit per-variant renames) are reflected in the tag
and key functions below. -/

/-- MeetingAction from src/messages.rs; the Rust discriminants are kept in
MeetingAction.ordinal. -/
inductive MeetingAction where
  | None
  | QueryMeetingState
  | Mute
  | Unmute
  | ToggleMute
  | HideVideo
  | ShowVideo
  | ToggleVideo
  | UnblurBackground
  | BlurBackground
  | ToggleBlurBackground
  | LowerHand
  | RaiseHand
  | ToggleHand
  | LeaveCall
  | React
  | ToggleUI
  | StopSharing
deriving DecidableEq

/-- The numeric discriminants written in the Rust enum; serde never reads
them, so they are only the legacy ordinals. -/
def MeetingAction.ordinal : MeetingAction → Nat
  | .None => 0
  | .QueryMeetingState => 0x0100
  | .Mute => 0x0200
  | .Unmute => 0x0201
  | .ToggleMute => 0x0202
  | .HideVideo => 0x0300
  | .ShowVideo => 0x0301
  | .ToggleVideo => 0x0302
  | .UnblurBackground => 0x0400
  | .BlurBackground => 0x0401
  | .ToggleBlurBackground => 0x0402
  | .LowerHand => 0x0500
  | .RaiseHand => 0x0501
  | .ToggleHand => 0x0502
  | .LeaveCall => 0x0700
  | .React => 0x0800
  | .ToggleUI => 0x0900
  | .StopSharing => 0x0A00

/-- The serde wire tag of each variant: the explicit serde(rename = ...)
strings; the None variant has no explicit rename, so the container's
rename_all = "camelCase" rule applies to the variant name "None", giving
the tag "none". -/
def MeetingAction.tag : MeetingAction → String
  | .None => "none"
  | .QueryMeetingState => "query-state"
  | .Mute => "mute"
  | .Unmute => "unmute"
  | .ToggleMute => "toggle-mute"
  | .HideVideo => "hide-video"
  | .ShowVideo => "show-video"
  | .ToggleVideo => "toggle-video"
  | .UnblurBackground => "unblur-background"
  | .BlurBackground => "blur-background"
  | .ToggleBlurBackground => "toggle-background-blur"
  | .LowerHand => "lower-hand"
  | .RaiseHand => "raise-hand"
  | .ToggleHand => "toggle-hand"
  | .LeaveCall => "leave-call"
  | .React => "send-reaction"
  | .ToggleUI => "toggle-ui"
  | .StopSharing => "stop-sharing"

/-- Serde serialization of a unit enum variant: its (renamed) tag string. -/
def MeetingAction.toJson (a : MeetingAction) : Json := Json.str a.tag

/-- ClientMessageParameterType from src/messages.rs. -/
inductive ClientMessageParameterType where
  | ReactApplause
  | ReactLaugh
  | ReactLike
  | ReactLove
  | ReactWow
  | ToggleUiChat
  | ToggleUiSharing
deriving DecidableEq

/-- The serde wire tags of the parameter types. -/
def ClientMessageParameterType.tag : ClientMessageParameterType → String
  | .ReactApplause => "applause"
  | .ReactLaugh => "laugh"
  | .ReactLike => "like"
  | .ReactLove => "love"
  | .ReactWow => "wow"
  | .ToggleUiChat => "chat"
  | .ToggleUiSharing => "sharing-tray"

/-- ClientMessageParameter from src/messages.rs; its single field is
serialized under the key "type". -/
structure ClientMessageParameter where
  type_ : ClientMessageParameterType
deriving DecidableEq

/-- ClientMessageParameter::new. -/
def ClientMessageParameter.new (type_ : ClientMessageParameterType) :
    ClientMessageParameter :=
  { type_ }

/-- Serde serialization of a ClientMessageParameter. -/
def ClientMessageParameter.toJson (p : ClientMessageParameter) : Json :=
  Json.obj [("type", Json.str p.type_.tag)]

/-- ClientMessage from src/messages.rs; request_id is Option of i32,
modelled as Option Int with explicit 32-bit wrapping where overflow
matters. -/
structure ClientMessage where
  action : MeetingAction
  parameters : Option ClientMessageParameter
  request_id : Option Int
deriving DecidableEq

/-- ClientMessage::new: the request identifier starts unset. -/
def ClientMessage.new (action : MeetingAction)
    (parameters : Option ClientMessageParameter) : ClientMessage :=
  { action, parameters, request_id := none }

/-- Serde serialization of a ClientMessage: keys in declaration order,
renamed to camelCase; an Option field that is none serializes as null. -/
def ClientMessage.toJson (m : ClientMessage) : Json :=
  Json.obj
    [("action", m.action.toJson),
     ("parameters",
        match m.parameters with
        | none => Json.null
        | some p => p.toJson),
     ("requestId",
        match m.request_id with
        | none => Json.null
        | some n => Json.num n)]

/-- MeetingPermissions from src/messages.rs: ten required booleans. -/
structure MeetingPermissions where
  can_toggle_mute : Bool
  can_toggle_video : Bool
  can_toggle_hand : Bool
  can_toggle_blur : Bool
  can_leave : Bool
  can_react : Bool
  can_toggle_share_tray : Bool
  can_toggle_chat : Bool
  can_stop_sharing : Bool
  can_pair : Bool
deriving DecidableEq

/-- MeetingPermissions::new: every flag false. -/
def MeetingPermissions.new : MeetingPermissions :=
  ⟨false, false, false, false, false, false, false, false, false, false⟩

/-- MeetingState from src/messages.rs: eight required booleans. -/
structure MeetingState where
  is_muted : Bool
  is_hand_raised : Bool
  is_in_meeting : Bool
  is_recording_on : Bool
  is_background_blurred : Bool
  is_sharing : Bool
  has_unread_messages : Bool
  is_video_on : Bool
deriving DecidableEq

/-- MeetingState::new: every flag false. -/
def MeetingState.new : MeetingState :=
  ⟨false, false, false, false, false, false, false, false⟩

/-- MeetingUpdate from src/messages.rs: two optional sub-objects. -/
structure MeetingUpdate where
  meeting_permissions : Option MeetingPermissions
  meeting_state : Option MeetingState
deriving DecidableEq

/-- ServerMessage from src/messages.rs: five optional fields. -/
structure ServerMessage where
  request_id : Option Int
  response : Option String
  error_msg : Option String
  token_refresh : Option String
  meeting_update : Option MeetingUpdate
deriving DecidableEq

/-- Association lookup on an object's collected fields. -/
def lookupKey (key : String) : List (String × Json) → Option Json
  | [] => none
  | (k, v) :: rest => if key = k then some v else lookupKey key rest

/-- The field-collection phase of a serde-derived struct deserializer:
walk the members in order, record each known key, fail on a duplicate
known key, and skip unknown keys (serde's default, no deny_unknown_fields
attribute appears in the source). -/
def collectFields (known : List String) :
    List (String × Json) → List (String × Json) → Except String (List (String × Json))
  | acc, [] => .ok acc
  | acc, (k, v) :: rest =>
    if k ∈ known then
      match lookupKey k acc with
      | some _ => .error ("duplicate field " ++ k)
      | none => collectFields known ((k, v) :: acc) rest
    else collectFields known acc rest

/-- Serde deserialization of a bool: only a JSON boolean is accepted. -/
def deBool : Json → Except String Bool
  | .bool b => .ok b
  | _ => .error "invalid type: expected a boolean"

/-- Serde deserialization of an i32: an integer in range. -/
def deI32 : Json → Except String Int
  | .num n =>
      if -(2 ^ 31) ≤ n ∧ n < 2 ^ 31 then .ok n
      else .error "number out of range of i32"
  | _ => .error "invalid type: expected an integer"

/-- Serde deserialization of a String. -/
def deString : Json → Except String String
  | .str s => .ok s
  | _ => .error "invalid type: expected a string"

/-- Read an Option field from the collected members: an absent key and a
null value both give none; any other value goes through the inner
deserializer. -/
def getOptField {α : Type} (acc : List (String × Json)) (key : String)
    (de : Json → Except String α) : Except String (Option α) :=
  match lookupKey key acc with
  | none => .ok none
  | some .null => .ok none
  | some v => (de v).map some

/-- Read a required field from the collected members: an absent key is a
missing-field error. -/
def getReqField {α : Type} (acc : List (String × Json)) (key : String)
    (de : Json → Except String α) : Except String α :=
  match lookupKey key acc with
  | none => .error ("missing field " ++ key)
  | some v => de v

/-- The camelCase wire keys of MeetingPermissions. -/
def mpFieldKeys : List String :=
  ["canToggleMute", "canToggleVideo", "canToggleHand", "canToggleBlur",
   "canLeave", "canReact", "canToggleShareTray", "canToggleChat",
   "canStopSharing", "canPair"]

/-- Field extraction for MeetingPermissions: every flag is required. -/
def readMeetingPermissions (acc : List (String × Json)) :
    Except String MeetingPermissions := do
  let f1 ← getReqField acc "canToggleMute" deBool
  let f2 ← getReqField acc "canToggleVideo" deBool
  let f3 ← getReqField acc "canToggleHand" deBool
  let f4 ← getReqField acc "canToggleBlur" deBool
  let f5 ← getReqField acc "canLeave" deBool
  let f6 ← getReqField acc "canReact" deBool
  let f7 ← getReqField acc "canToggleShareTray" deBool
  let f8 ← getReqField acc "canToggleChat" deBool
  let f9 ← getReqField acc "canStopSharing" deBool
  let f10 ← getReqField acc "canPair" deBool
  pure ⟨f1, f2, f3, f4, f5, f6, f7, f8, f9, f10⟩

/-- Serde deserialization of MeetingPermissions. -/
def MeetingPermissions.deJson : Json → Except String MeetingPermissions
  | .obj fields => (collectFields mpFieldKeys [] fields).bind readMeetingPermissions
  | _ => .error "invalid type: expected an object"

/-- The camelCase wire keys of MeetingState. -/
def msFieldKeys : List String :=
  ["isMuted", "isHandRaised", "isInMeeting", "isRecordingOn",
   "isBackgroundBlurred", "isSharing", "hasUnreadMessages", "isVideoOn"]

/-- Field extraction for MeetingState: every flag is required. -/
def readMeetingState (acc : List (String × Json)) :
    Except String MeetingState := do
  let f1 ← getReqField acc "isMuted" deBool
  let f2 ← getReqField acc "isHandRaised" deBool
  let f3 ← getReqField acc "isInMeeting" deBool
  let f4 ← getReqField acc "isRecordingOn" deBool
  let f5 ← getReqField acc "isBackgroundBlurred" deBool
  let f6 ← getReqField acc "isSharing" deBool
  let f7 ← getReqField acc "hasUnreadMessages" deBool
  let f8 ← getReqField acc "isVideoOn" deBool
  pure ⟨f1, f2, f3, f4, f5, f6, f7, f8⟩

/-- Serde deserialization of MeetingState. -/
def MeetingState.deJson : Json → Except String MeetingState
  | .obj fields => (collectFields msFieldKeys [] fields).bind readMeetingState
  | _ => .error "invalid type: expected an object"

/-- The camelCase wire keys of MeetingUpdate. -/
def muFieldKeys : List String := ["meetingPermissions", "meetingState"]

/-- Field extraction for MeetingUpdate: both sub-objects optional. -/
def readMeetingUpdate (acc : List (String × Json)) :
    Except String MeetingUpdate := do
  let p ← getOptField acc "meetingPermissions" MeetingPermissions.deJson
  let s ← getOptField acc "meetingState" MeetingState.deJson
  pure ⟨p, s⟩

/-- Serde deserialization of MeetingUpdate. -/
def MeetingUpdate.deJson : Json → Except String MeetingUpdate
  | .obj fields => (collectFields muFieldKeys [] fields).bind readMeetingUpdate
  | _ => .error "invalid type: expected an object"

/-- The camelCase wire keys of ServerMessage. -/
def smFieldKeys : List String :=
  ["requestId", "response", "errorMsg", "tokenRefresh", "meetingUpdate"]

/-- Field extraction for ServerMessage: every field optional. -/
def readServerMessage (acc : List (String × Json)) :
    Except String ServerMessage := do
  let rid ← getOptField acc "requestId" deI32
  let resp ← getOptField acc "response" deString
  let err ← getOptField acc "errorMsg" deString
  let tok ← getOptField acc "tokenRefresh" deString
  let mu ← getOptField acc "meetingUpdate" MeetingUpdate.deJson
  pure ⟨rid, resp, err, tok, mu⟩

/-- Serde deserialization of ServerMessage. -/
def ServerMessage.deJson : Json → Except String ServerMessage
  | .obj fields => (collectFields smFieldKeys [] fields).bind readServerMessage
  | _ => .error "invalid type: expected an object"

/-- serde_json::from_str::<ServerMessage>. -/
def ServerMessage.fromStr (s : String) : Except String ServerMessage :=
  match Json.parse s with
  | none => .error "expected value"
  | some j => ServerMessage.deJson j

/-! Connection wrapper, translated from src/lib.rs and src/types.rs. The
transport (tokio-tungstenite) is external to the crate, so each operation
takes the transport's outcome as an explicit event parameter; everything
the crate itself does — state checks, the request-counter update, message
encoding and decoding — is computed by the definitions. -/

/-- AppIdentifiers from src/types.rs. -/
structure AppIdentifiers where
  protocol_version : String
  manufacturer : String
  device : String
  app : String
  app_version : String
deriving DecidableEq

/-- The distinct failure results the wrapper can return, named as the spec
names them; in the source each is a boxed error produced on exactly one of
these paths. -/
inductive WsError where
  | addressError
  | connectError
  | notConnectedError
  | encodeError
  | sendError
  | decodeError
  | timeoutError
  | connectionClosedError
  | transportError
  | closeError
deriving DecidableEq

/-- TeamsWebsocket from src/lib.rs; the live tungstenite stream is opaque
to the crate, so the stored channel handle is modelled as a Nat token
inside the Option. request_id is the i32 counter, as an Int kept in i32
range by wrap32 at each increment. -/
structure TeamsWebsocket where
  identifier : AppIdentifiers
  socket : Option Nat
  token : Option String
  request_id : Int
  url : String
deriving DecidableEq

/-- The default server address baked into TeamsWebsocket::new. -/
def defaultUrl : String := "ws://127.0.0.1:8124"

/-- TeamsWebsocket::new. -/
def TeamsWebsocket.new (identifier : AppIdentifiers) (token : Option String)
    (url : Option String) : TeamsWebsocket :=
  { identifier, socket := none, token, request_id := 0, url := url.getD defaultUrl }

/-- Two's-complement wrapping into the i32 range, the release-mode meaning
of the source's request_id += 1 at the overflow boundary. -/
def wrap32 (n : Int) : Int := (n + 2 ^ 31) % 2 ^ 32 - 2 ^ 31

/-- Outcome of TeamsWebsocket::connect's URL parse and handshake, both
performed by external crates (url, tokio-tungstenite). -/
inductive ConnectEvent where
  | ok (chan : Nat)
  | parseFailure
  | handshakeFailure
deriving DecidableEq

/-- TeamsWebsocket::connect: on success the fresh channel handle is stored,
replacing any previous one. -/
def TeamsWebsocket.connect (s : TeamsWebsocket) (ev : ConnectEvent) :
    Except WsError Unit × TeamsWebsocket :=
  match ev with
  | .parseFailure => (.error .addressError, s)
  | .handshakeFailure => (.error .connectError, s)
  | .ok chan => (.ok (), { s with socket := some chan })

/-- Outcome of the transport write inside TeamsWebsocket::send. -/
inductive SendEvent where
  | ok
  | transportFailure
deriving DecidableEq

/-- What one call to TeamsWebsocket::send produced: the returned result,
the wrapper state afterwards, the message as actually serialized (with the
overwritten request identifier), and its encoded text. The last two are
none exactly when the not-connected check fired. -/
structure SendOutcome where
  result : Except WsError Unit
  state : TeamsWebsocket
  message : Option ClientMessage
  encoded : Option String

/-- TeamsWebsocket::send: not-connected check, then the request-identifier
overwrite and counter increment, then encoding, then the transport write.
serde_json::to_string cannot fail on these message values, so the
EncodeError arm of the source is unreachable and the only run-time failure
after the overwrite is the transport write. -/
def TeamsWebsocket.send (s : TeamsWebsocket) (message : ClientMessage)
    (ev : SendEvent) : SendOutcome :=
  match s.socket with
  | some _ =>
    let message := { message with request_id := some s.request_id }
    let s := { s with request_id := wrap32 (s.request_id + 1) }
    let serialized := Json.render (ClientMessage.toJson message)
    match ev with
    | .ok => ⟨.ok (), s, some message, some serialized⟩
    | .transportFailure => ⟨.error .sendError, s, some message, some serialized⟩
  | none => ⟨.error .notConnectedError, s, none, none⟩

/-- The bounded wait used by TeamsWebsocket::receive,
Duration::from_millis(10). -/
def receiveTimeoutMillis : Nat := 10

/-- tungstenite Message frames as the stream can deliver them. -/
inductive WsMessage where
  | text (s : String)
  | binary (data : List Nat)
  | ping (data : List Nat)
  | pong (data : List Nat)
  | close (reason : Option String)
deriving DecidableEq

/-- tungstenite Message::to_text: a text frame returns its string; binary,
ping and pong payloads go through str::from_utf8, which can fail; a close
frame returns its reason, or "" without one. -/
def WsMessage.toText : WsMessage → Option String
  | .text s => some s
  | .binary data => (utf8Decode? data).map String.mk
  | .ping data => (utf8Decode? data).map String.mk
  | .pong data => (utf8Decode? data).map String.mk
  | .close r => some (r.getD "")

/-- What the timed wait on the stream produced inside
TeamsWebsocket::receive: the timer elapsed with no frame, the stream ended,
a frame arrived, or the read failed. -/
inductive RecvEvent where
  | timeout
  | streamEnd
  | frame (msg : WsMessage)
  | readFailure
deriving DecidableEq

/-- Result of one call to TeamsWebsocket::receive; crash is the unwrap on
Message::to_text aborting the call instead of returning a failure value. -/
inductive RecvOutcome where
  | ok (msg : ServerMessage)
  | error (e : WsError)
  | crash
deriving DecidableEq

/-- TeamsWebsocket::receive: not-connected check, the 10 ms bounded wait,
then msg.to_text().unwrap() followed by serde_json::from_str. -/
def TeamsWebsocket.receive (s : TeamsWebsocket) (ev : RecvEvent) :
    RecvOutcome × TeamsWebsocket :=
  match s.socket with
  | some _ =>
    match ev with
    | .timeout => (.error .timeoutError, s)
    | .streamEnd => (.error .connectionClosedError, s)
    | .readFailure => (.error .transportError, s)
    | .frame msg =>
      match msg.toText with
      | none => (.crash, s)
      | some t =>
        match ServerMessage.fromStr t with
        | .ok m => (.ok m, s)
        | .error _ => (.error .decodeError, s)
  | none => (.error .notConnectedError, s)

/-- Outcome of the graceful shutdown inside TeamsWebsocket::close. -/
inductive CloseEvent where
  | ok
  | transportFailure
deriving DecidableEq

/-- TeamsWebsocket::close: not-connected check, then socket.close(None).
The source returns Ok(()) without ever assigning self.socket = None, so
the stored channel handle survives a successful close. -/
def TeamsWebsocket.close (s : TeamsWebsocket) (ev : CloseEvent) :
    Except WsError Unit × TeamsWebsocket :=
  match s.socket with
  | some _ =>
    match ev with
    | .transportFailure => (.error .closeError, s)
    | .ok => (.ok (), s)
  | none => (.error .notConnectedError, s)

/-- The identifiers the crate's own test module uses. -/
def sampleIdentifiers : AppIdentifiers :=
  ⟨"1.0", "TestManufacturer", "TestDevice", "TestApp", "1.0"⟩

/-- A wrapper in the Connected state: freshly constructed, then connected
with channel handle 0. -/
def sampleConnected : TeamsWebsocket :=
  ((TeamsWebsocket.new sampleIdentifiers none none).connect (ConnectEvent.ok 0)).2

/-- A wrapper in the Disconnected state: freshly constructed. -/
def sampleDisconnected : TeamsWebsocket :=
  TeamsWebsocket.new sampleIdentifiers none none

/-- The request identifiers that a run of send calls (each with a
successful transport write) assigns, in call order; each equals the
counter value the wrapper held when that call ran. -/
def assignedIds : TeamsWebsocket → List ClientMessage → List Int
  | _, [] => []
  | s, m :: ms => s.request_id :: assignedIds (s.send m .ok).state ms

/-- A Connected wrapper whose request counter sits at the i32 maximum. -/
def nearOverflow : TeamsWebsocket :=
  { sampleConnected with request_id := 2 ^ 31 - 1 }

/-! Helper instances and lemmas shared by the claim theorems. -/

instance exceptDecEq {ε α : Type} [DecidableEq ε] [DecidableEq α] :
    DecidableEq (Except ε α) := fun x y =>
  match x, y with
  | .ok a, .ok b =>
      if h : a = b then .isTrue (by rw [h])
      else .isFalse (fun hh => h (Except.ok.inj hh))
  | .ok _, .error _ => .isFalse (fun hh => Except.noConfusion hh)
  | .error _, .ok _ => .isFalse (fun hh => Except.noConfusion hh)
  | .error a, .error b =>
      if h : a = b then .isTrue (by rw [h])
      else .isFalse (fun hh => h (Except.error.inj hh))

/-- Whether an Except value is a success. -/
def exceptIsOk {ε α : Type} : Except ε α → Bool
  | .ok _ => true
  | .error _ => false

theorem exceptIsOk_false {ε α : Type} {x : Except ε α}
    (h : exceptIsOk x = false) : ∃ e, x = .error e := by
  cases x with
  | ok a => simp [exceptIsOk] at h
  | error e => exact ⟨e, rfl⟩

theorem exceptIsOk_bind {α β : Type} {x : Except String α} {f : α → Except String β}
    (h : exceptIsOk (x >>= f) = true) : ∃ a, x = .ok a ∧ exceptIsOk (f a) = true := by
  cases x with
  | ok a => exact ⟨a, rfl, h⟩
  | error e => exact Bool.noConfusion h

theorem wrap32_eq_self {n : Int} (h1 : -(2 ^ 31) ≤ n) (h2 : n < 2 ^ 31) :
    wrap32 n = n := by
  unfold wrap32
  have h3 : 0 ≤ n + 2 ^ 31 := by linarith
  have h4 : n + 2 ^ 31 < 2 ^ 32 := by
    have : (2 : Int) ^ 32 = 2 ^ 31 + 2 ^ 31 := by norm_num
    linarith
  rw [Int.emod_eq_of_lt h3 h4]
  ring

/-- One call to send in the Connected state: result, new state, serialized
message and encoded text, for either transport outcome. -/
theorem send_connected_fields (s : TeamsWebsocket) (c : Nat) (m : ClientMessage)
    (ev : SendEvent) (h : s.socket = some c) :
    (s.send m ev).message = some { m with request_id := some s.request_id } ∧
    (s.send m ev).encoded
      = some (Json.render (ClientMessage.toJson { m with request_id := some s.request_id })) ∧
    (s.send m ev).state = { s with request_id := wrap32 (s.request_id + 1) } ∧
    (s.send m ev).result ≠ .error .notConnectedError := by
  unfold TeamsWebsocket.send
  rw [h]
  cases ev with
  | ok => exact ⟨rfl, rfl, rfl, fun hh => Except.noConfusion hh⟩
  | transportFailure =>
      exact ⟨rfl, rfl, rfl, fun hh => WsError.noConfusion (Except.error.inj hh)⟩

theorem lookupKey_cons (key k : String) (v : Json) (acc : List (String × Json)) :
    lookupKey key ((k, v) :: acc) = if key = k then some v else lookupKey key acc := rfl

theorem collect_append (known : List String) (xs ys acc : List (String × Json)) :
    collectFields known acc (xs ++ ys)
      = (collectFields known acc xs).bind (fun a => collectFields known a ys) := by
  induction xs generalizing acc with
  | nil => simp [collectFields, Except.bind]
  | cons p xs ih =>
    obtain ⟨k, v⟩ := p
    simp only [List.cons_append, collectFields]
    split
    · cases hl : lookupKey k acc with
      | some w => simp [Except.bind]
      | none => exact ih _
    · exact ih _

theorem collect_lookup_not_mem (known : List String) (k : String)
    (xs : List (String × Json)) (acc acc' : List (String × Json))
    (hk : k ∉ xs.map Prod.fst)
    (h : collectFields known acc xs = .ok acc') :
    lookupKey k acc' = lookupKey k acc := by
  induction xs generalizing acc with
  | nil =>
    simp only [collectFields] at h
    cases h
    rfl
  | cons p xs ih =>
    obtain ⟨k1, v⟩ := p
    have hk1 : k ≠ k1 ∧ k ∉ xs.map Prod.fst := by
      simpa [not_or] using hk
    simp only [collectFields] at h
    split at h
    · cases hl : lookupKey k1 acc with
      | some w => rw [hl] at h; exact Except.noConfusion h
      | none =>
        rw [hl] at h
        have := ih _ hk1.2 h
        rw [this, lookupKey_cons, if_neg hk1.1]
    · exact ih _ hk1.2 h

theorem getOpt_cons_self_null {α : Type} (acc : List (String × Json)) (k : String)
    (de : Json → Except String α) :
    getOptField ((k, Json.null) :: acc) k de = .ok none := by
  simp [getOptField, lookupKey]

theorem getOpt_cons_ne {α : Type} (acc : List (String × Json)) (k k' : String)
    (v : Json) (de : Json → Except String α) (h : k' ≠ k) :
    getOptField ((k, v) :: acc) k' de = getOptField acc k' de := by
  simp [getOptField, lookupKey, h]

theorem getOpt_not_found {α : Type} (acc : List (String × Json)) (k : String)
    (de : Json → Except String α) (h : lookupKey k acc = none) :
    getOptField acc k de = .ok none := by
  simp [getOptField, h]

theorem getReq_ok_lookup {α : Type} (acc : List (String × Json)) (key : String)
    (de : Json → Except String α)
    (h : exceptIsOk (getReqField acc key de) = true) :
    (lookupKey key acc).isSome := by
  unfold getReqField at h
  cases hl : lookupKey key acc with
  | none => rw [hl] at h; exact Bool.noConfusion h
  | some v => rfl

/-- Appending a null for a still-unseen top-level key leaves ServerMessage
field extraction unchanged. -/
theorem readSM_cons_null (k : String) (acc : List (String × Json))
    (hk : k ∈ smFieldKeys) (h : lookupKey k acc = none) :
    readServerMessage ((k, Json.null) :: acc) = readServerMessage acc := by
  simp only [smFieldKeys, List.mem_cons, List.not_mem_nil, or_false] at hk
  rcases hk with rfl | rfl | rfl | rfl | rfl
  · have e0 := getOpt_cons_self_null acc "requestId" deI32
    have e1 := getOpt_cons_ne acc "requestId" "response" Json.null deString (by decide)
    have e2 := getOpt_cons_ne acc "requestId" "errorMsg" Json.null deString (by decide)
    have e3 := getOpt_cons_ne acc "requestId" "tokenRefresh" Json.null deString (by decide)
    have e4 := getOpt_cons_ne acc "requestId" "meetingUpdate" Json.null MeetingUpdate.deJson (by decide)
    have e5 := getOpt_not_found acc "requestId" deI32 h
    simp only [readServerMessage, e0, e1, e2, e3, e4, e5]
  · have e0 := getOpt_cons_self_null acc "response" deString
    have e1 := getOpt_cons_ne acc "response" "requestId" Json.null deI32 (by decide)
    have e2 := getOpt_cons_ne acc "response" "errorMsg" Json.null deString (by decide)
    have e3 := getOpt_cons_ne acc "response" "tokenRefresh" Json.null deString (by decide)
    have e4 := getOpt_cons_ne acc "response" "meetingUpdate" Json.null MeetingUpdate.deJson (by decide)
    have e5 := getOpt_not_found acc "response" deString h
    simp only [readServerMessage, e0, e1, e2, e3, e4, e5]
  · have e0 := getOpt_cons_self_null acc "errorMsg" deString
    have e1 := getOpt_cons_ne acc "errorMsg" "requestId" Json.null deI32 (by decide)
    have e2 := getOpt_cons_ne acc "errorMsg" "response" Json.null deString (by decide)
    have e3 := getOpt_cons_ne acc "errorMsg" "tokenRefresh" Json.null deString (by decide)
    have e4 := getOpt_cons_ne acc "errorMsg" "meetingUpdate" Json.null MeetingUpdate.deJson (by decide)
    have e5 := getOpt_not_found acc "errorMsg" deString h
    simp only [readServerMessage, e0, e1, e2, e3, e4, e5]
  · have e0 := getOpt_cons_self_null acc "tokenRefresh" deString
    have e1 := getOpt_cons_ne acc "tokenRefresh" "requestId" Json.null deI32 (by decide)
    have e2 := getOpt_cons_ne acc "tokenRefresh" "response" Json.null deString (by decide)
    have e3 := getOpt_cons_ne acc "tokenRefresh" "errorMsg" Json.null deString (by decide)
    have e4 := getOpt_cons_ne acc "tokenRefresh" "meetingUpdate" Json.null MeetingUpdate.deJson (by decide)
    have e5 := getOpt_not_found acc "tokenRefresh" deString h
    simp only [readServerMessage, e0, e1, e2, e3, e4, e5]
  · have e0 := getOpt_cons_self_null acc "meetingUpdate" MeetingUpdate.deJson
    have e1 := getOpt_cons_ne acc "meetingUpdate" "requestId" Json.null deI32 (by decide)
    have e2 := getOpt_cons_ne acc "meetingUpdate" "response" Json.null deString (by decide)
    have e3 := getOpt_cons_ne acc "meetingUpdate" "errorMsg" Json.null deString (by decide)
    have e4 := getOpt_cons_ne acc "meetingUpdate" "tokenRefresh" Json.null deString (by decide)
    have e5 := getOpt_not_found acc "meetingUpdate" MeetingUpdate.deJson h
    simp only [readServerMessage, e0, e1, e2, e3, e4, e5]

/-- A document with a null for a still-unseen top-level key decodes to the
same ServerMessage result as the document without that key. -/
theorem deSM_append_null (k : String) (fields : List (String × Json))
    (hk : k ∈ smFieldKeys) (hnot : k ∉ fields.map Prod.fst) :
    ServerMessage.deJson (Json.obj (fields ++ [(k, Json.null)]))
      = ServerMessage.deJson (Json.obj fields) := by
  show (collectFields smFieldKeys [] (fields ++ [(k, Json.null)])).bind readServerMessage
      = (collectFields smFieldKeys [] fields).bind readServerMessage
  rw [collect_append]
  cases hcf : collectFields smFieldKeys [] fields with
  | error e => rfl
  | ok acc =>
    have hlook : lookupKey k acc = none := by
      have := collect_lookup_not_mem smFieldKeys k fields [] acc hnot hcf
      simpa [lookupKey] using this
    have hstep : collectFields smFieldKeys acc [(k, Json.null)] = .ok ((k, Json.null) :: acc) := by
      simp [collectFields, hk, hlook]
    show (collectFields smFieldKeys acc [(k, Json.null)]).bind readServerMessage
      = readServerMessage acc
    rw [hstep]
    show readServerMessage ((k, Json.null) :: acc) = readServerMessage acc
    exact readSM_cons_null k acc hk hlook

/-- If MeetingPermissions extraction succeeds, every one of its ten keys
was present among the collected fields. -/
theorem readMP_ok_lookup (acc : List (String × Json))
    (h : exceptIsOk (readMeetingPermissions acc) = true) :
    ∀ k ∈ mpFieldKeys, (lookupKey k acc).isSome := by
  unfold readMeetingPermissions at h
  obtain ⟨a1, h1, h⟩ := exceptIsOk_bind h
  obtain ⟨a2, h2, h⟩ := exceptIsOk_bind h
  obtain ⟨a3, h3, h⟩ := exceptIsOk_bind h
  obtain ⟨a4, h4, h⟩ := exceptIsOk_bind h
  obtain ⟨a5, h5, h⟩ := exceptIsOk_bind h
  obtain ⟨a6, h6, h⟩ := exceptIsOk_bind h
  obtain ⟨a7, h7, h⟩ := exceptIsOk_bind h
  obtain ⟨a8, h8, h⟩ := exceptIsOk_bind h
  obtain ⟨a9, h9, h⟩ := exceptIsOk_bind h
  intro k hk
  simp only [mpFieldKeys, List.mem_cons, List.not_mem_nil, or_false] at hk
  rcases hk with rfl | rfl | rfl | rfl | rfl | rfl | rfl | rfl | rfl | rfl
  · exact getReq_ok_lookup _ _ _ (by rw [h1]; rfl)
  · exact getReq_ok_lookup _ _ _ (by rw [h2]; rfl)
  · exact getReq_ok_lookup _ _ _ (by rw [h3]; rfl)
  · exact getReq_ok_lookup _ _ _ (by rw [h4]; rfl)
  · exact getReq_ok_lookup _ _ _ (by rw [h5]; rfl)
  · exact getReq_ok_lookup _ _ _ (by rw [h6]; rfl)
  · exact getReq_ok_lookup _ _ _ (by rw [h7]; rfl)
  · exact getReq_ok_lookup _ _ _ (by rw [h8]; rfl)
  · exact getReq_ok_lookup _ _ _ (by rw [h9]; rfl)
  · obtain ⟨a10, h10, h⟩ := exceptIsOk_bind h
    exact getReq_ok_lookup _ _ _ (by rw [h10]; rfl)

/-- If MeetingState extraction succeeds, every one of its eight keys was
present among the collected fields. -/
theorem readMS_ok_lookup (acc : List (String × Json))
    (h : exceptIsOk (readMeetingState acc) = true) :
    ∀ k ∈ msFieldKeys, (lookupKey k acc).isSome := by
  unfold readMeetingState at h
  obtain ⟨a1, h1, h⟩ := exceptIsOk_bind h
  obtain ⟨a2, h2, h⟩ := exceptIsOk_bind h
  obtain ⟨a3, h3, h⟩ := exceptIsOk_bind h
  obtain ⟨a4, h4, h⟩ := exceptIsOk_bind h
  obtain ⟨a5, h5, h⟩ := exceptIsOk_bind h
  obtain ⟨a6, h6, h⟩ := exceptIsOk_bind h
  obtain ⟨a7, h7, h⟩ := exceptIsOk_bind h
  intro k hk
  simp only [msFieldKeys, List.mem_cons, List.not_mem_nil, or_false] at hk
  rcases hk with rfl | rfl | rfl | rfl | rfl | rfl | rfl | rfl
  · exact getReq_ok_lookup _ _ _ (by rw [h1]; rfl)
  · exact getReq_ok_lookup _ _ _ (by rw [h2]; rfl)
  · exact getReq_ok_lookup _ _ _ (by rw [h3]; rfl)
  · exact getReq_ok_lookup _ _ _ (by rw [h4]; rfl)
  · exact getReq_ok_lookup _ _ _ (by rw [h5]; rfl)
  · exact getReq_ok_lookup _ _ _ (by rw [h6]; rfl)
  · exact getReq_ok_lookup _ _ _ (by rw [h7]; rfl)
  · obtain ⟨a8, h8, h⟩ := exceptIsOk_bind h
    exact getReq_ok_lookup _ _ _ (by rw [h8]; rfl)

/-- Omitting any of the ten required flags makes MeetingPermissions
deserialization fail. -/
theorem deMP_missing_flag (k : String) (fields : List (String × Json))
    (hk : k ∈ mpFieldKeys) (hnot : k ∉ fields.map Prod.fst) :
    exceptIsOk (MeetingPermissions.deJson (Json.obj fields)) = false := by
  show exceptIsOk ((collectFields mpFieldKeys [] fields).bind readMeetingPermissions) = false
  cases hcf : collectFields mpFieldKeys [] fields with
  | error e => rfl
  | ok acc =>
    have hlook : lookupKey k acc = none := by
      have := collect_lookup_not_mem mpFieldKeys k fields [] acc hnot hcf
      simpa [lookupKey] using this
    show exceptIsOk (readMeetingPermissions acc) = false
    cases hb : exceptIsOk (readMeetingPermissions acc) with
    | false => rfl
    | true =>
      have := readMP_ok_lookup acc hb k hk
      rw [hlook] at this
      exact Bool.noConfusion this

/-- Omitting any of the eight required flags makes MeetingState
deserialization fail. -/
theorem deMS_missing_flag (k : String) (fields : List (String × Json))
    (hk : k ∈ msFieldKeys) (hnot : k ∉ fields.map Prod.fst) :
    exceptIsOk (MeetingState.deJson (Json.obj fields)) = false := by
  show exceptIsOk ((collectFields msFieldKeys [] fields).bind readMeetingState) = false
  cases hcf : collectFields msFieldKeys [] fields with
  | error e => rfl
  | ok acc =>
    have hlook : lookupKey k acc = none := by
      have := collect_lookup_not_mem msFieldKeys k fields [] acc hnot hcf
      simpa [lookupKey] using this
    show exceptIsOk (readMeetingState acc) = false
    cases hb : exceptIsOk (readMeetingState acc) with
    | false => rfl
    | true =>
      have := readMS_ok_lookup acc hb k hk
      rw [hlook] at this
      exact Bool.noConfusion this

/-- A MeetingUpdate whose only member is a meetingPermissions object is the
image of that object's MeetingPermissions deserialization. -/
theorem deMU_perm_obj (fields : List (String × Json)) :
    MeetingUpdate.deJson (Json.obj [("meetingPermissions", Json.obj fields)])
      = ((MeetingPermissions.deJson (Json.obj fields)).map some).bind
          (fun p => Except.ok ⟨p, none⟩) := rfl

/-- A MeetingUpdate whose only member is a meetingState object is the image
of that object's MeetingState deserialization. -/
theorem deMU_state_obj (fields : List (String × Json)) :
    MeetingUpdate.deJson (Json.obj [("meetingState", Json.obj fields)])
      = ((MeetingState.deJson (Json.obj fields)).map some).bind
          (fun s => Except.ok ⟨none, s⟩) := rfl

/-- A ServerMessage whose only member is a meetingUpdate object is the
image of that object's MeetingUpdate deserialization. -/
theorem deSM_mu_obj (mufields : List (String × Json)) :
    ServerMessage.deJson (Json.obj [("meetingUpdate", Json.obj mufields)])
      = ((MeetingUpdate.deJson (Json.obj mufields)).map some).bind
          (fun mu => Except.ok ⟨none, none, none, none, mu⟩) := rfl

/-- A failing meetingPermissions sub-object fails the whole MeetingUpdate. -/
theorem deMU_perm_err (fields : List (String × Json)) (e : String)
    (h : MeetingPermissions.deJson (Json.obj fields) = .error e) :
    MeetingUpdate.deJson (Json.obj [("meetingPermissions", Json.obj fields)]) = .error e := by
  rw [deMU_perm_obj, h]
  rfl

/-- A failing meetingState sub-object fails the whole MeetingUpdate. -/
theorem deMU_state_err (fields : List (String × Json)) (e : String)
    (h : MeetingState.deJson (Json.obj fields) = .error e) :
    MeetingUpdate.deJson (Json.obj [("meetingState", Json.obj fields)]) = .error e := by
  rw [deMU_state_obj, h]
  rfl

/-- A failing meetingUpdate value fails the whole ServerMessage. -/
theorem deSM_mu_err (mufields : List (String × Json)) (e : String)
    (h : MeetingUpdate.deJson (Json.obj mufields) = .error e) :
    exceptIsOk (ServerMessage.deJson (Json.obj [("meetingUpdate", Json.obj mufields)]))
      = false := by
  rw [deSM_mu_obj, h]
  rfl

/-- The identifier a run of sends assigns at position i is the starting
counter plus i, as long as no increment in between overflows. -/
theorem assignedIds_get (ms : List ClientMessage) (i : Nat) (s : TeamsWebsocket) (c : Nat)
    (hs : s.socket = some c) (hi : i < ms.length)
    (hlo : -(2 ^ 31) ≤ s.request_id) (hhi : s.request_id + (i : Int) < 2 ^ 31) :
    (assignedIds s ms).get? i = some (s.request_id + (i : Int)) := by
  induction ms generalizing i s with
  | nil => exact absurd hi (by simp)
  | cons m ms ih =>
    cases i with
    | zero => simp [assignedIds]
    | succ j =>
      have hfields := send_connected_fields s c m .ok hs
      have hsock : ((s.send m .ok).state).socket = some c := by
        rw [hfields.2.2.1]
        exact hs
      have hreq : ((s.send m .ok).state).request_id = s.request_id + 1 := by
        rw [hfields.2.2.1]
        show wrap32 (s.request_id + 1) = s.request_id + 1
        apply wrap32_eq_self
        · linarith
        · push_cast at hhi
          linarith
      have hi' : j < ms.length := by simpa using hi
      have hrec := ih j (s.send m .ok).state hsock hi'
        (by rw [hreq]; linarith)
        (by rw [hreq]; push_cast at hhi ⊢; linarith)
      show (s.request_id :: assignedIds (s.send m .ok).state ms).get? (j + 1)
        = some (s.request_id + ((j + 1 : Nat) : Int))
      rw [List.get?_cons_succ, hrec, hreq]
      push_cast
      ring_nf

/-! The claim theorems. -/

/-- C1 (counterexample): on a concrete Connected wrapper a close that hits
no transport failure returns success, yet the stored channel handle is
still present afterwards and a subsequent send returns success instead of
failing with NotConnectedError — refuting the claim that close discards
the handle and leaves the wrapper Disconnected. -/
theorem claim_c1_counterexample :
    (sampleConnected.close CloseEvent.ok).1 = .ok () ∧
    (sampleConnected.close CloseEvent.ok).2.socket = some 0 ∧
    ((sampleConnected.close CloseEvent.ok).2.send
        (ClientMessage.new MeetingAction.BlurBackground none) SendEvent.ok).result
      = .ok () :=
  ⟨rfl, rfl, rfl⟩

/-- C1 (amended): for every wrapper in the Connected state, a close that
does not hit a transport failure returns success but leaves the wrapper
state — the stored channel handle included — entirely unchanged, so the
wrapper stays Connected and a subsequent send does not fail with
NotConnectedError. -/
theorem claim_c1 (s : TeamsWebsocket) (c : Nat) (h : s.socket = some c) :
    (s.close CloseEvent.ok).1 = .ok () ∧
    (s.close CloseEvent.ok).2 = s ∧
    ∀ (m : ClientMessage) (ev : SendEvent),
      ((s.close CloseEvent.ok).2.send m ev).result ≠ .error WsError.notConnectedError := by
  unfold TeamsWebsocket.close
  rw [h]
  exact ⟨rfl, rfl, fun m ev => (send_connected_fields s c m ev h).2.2.2⟩

/-- C1 witness: the amended theorem at the sample Connected wrapper. -/
theorem claim_c1_witness :
    sampleConnected.socket = some 0 ∧
    ((sampleConnected.close CloseEvent.ok).1 = .ok () ∧
     (sampleConnected.close CloseEvent.ok).2 = sampleConnected ∧
     ∀ (m : ClientMessage) (ev : SendEvent),
       ((sampleConnected.close CloseEvent.ok).2.send m ev).result
         ≠ .error WsError.notConnectedError) :=
  ⟨rfl, claim_c1 sampleConnected 0 rfl⟩

/-- C2: on a Connected wrapper every send overwrites the command's request
identifier with the current counter value before the encode attempt (the
serialized message and encoded text carry exactly that identifier) and
advances the counter by one i32 increment whether or not the transport
write fails; consequently a run of sends with successful writes starting
from counter 0 assigns identifiers exactly 0, 1, 2, … in call order, for
every action, at every index below the i32 overflow bound. -/
theorem claim_c2 :
    (∀ (s : TeamsWebsocket) (c : Nat) (m : ClientMessage) (ev : SendEvent),
        s.socket = some c →
        (s.send m ev).message = some { m with request_id := some s.request_id } ∧
        (s.send m ev).encoded
          = some (Json.render (ClientMessage.toJson
              { m with request_id := some s.request_id })) ∧
        (s.send m ev).state.request_id = wrap32 (s.request_id + 1)) ∧
    (∀ (s : TeamsWebsocket) (c : Nat) (ms : List ClientMessage) (i : Nat),
        s.socket = some c → s.request_id = 0 → i < ms.length → (i : Int) < 2 ^ 31 →
        (assignedIds s ms).get? i = some (i : Int)) := by
  constructor
  · intro s c m ev h
    have hf := send_connected_fields s c m ev h
    exact ⟨hf.1, hf.2.1, by rw [hf.2.2.1]⟩
  · intro s c ms i hs h0 hi hbound
    have := assignedIds_get ms i s c hs hi (by rw [h0]; norm_num) (by rw [h0]; simpa using hbound)
    rw [this, h0, zero_add]

/-- C2 witness: both parts of the theorem at the sample Connected wrapper. -/
theorem claim_c2_witness :
    sampleConnected.socket = some 0 ∧ sampleConnected.request_id = 0 ∧
    (0 : Nat) < ([ClientMessage.new MeetingAction.Mute none] : List ClientMessage).length ∧
    ((0 : Nat) : Int) < 2 ^ 31 ∧
    (assignedIds sampleConnected [ClientMessage.new MeetingAction.Mute none]).get? 0
      = some ((0 : Nat) : Int) :=
  ⟨rfl, rfl, by decide, by decide,
   claim_c2.2 sampleConnected 0 [ClientMessage.new MeetingAction.Mute none] 0
     rfl rfl (by decide) (by decide)⟩

/-- C3 (counterexample): on a concrete Connected wrapper, a binary frame
whose payload is not valid UTF-8 makes receive crash on the to_text unwrap
instead of returning DecodeError, and a binary frame whose payload is the
UTF-8 of an empty JSON object decodes successfully instead of returning
DecodeError — refuting the claim that every non-text frame yields a
DecodeError failure value. -/
theorem claim_c3_counterexample :
    (sampleConnected.receive (RecvEvent.frame (WsMessage.binary [255]))).1
      = RecvOutcome.crash ∧
    (sampleConnected.receive (RecvEvent.frame (WsMessage.binary [255]))).1
      ≠ RecvOutcome.error WsError.decodeError ∧
    (sampleConnected.receive (RecvEvent.frame (WsMessage.binary [123, 125]))).1
      = RecvOutcome.ok ⟨none, none, none, none, none⟩ :=
  ⟨rfl, by decide, rfl⟩

/-- C3 (amended): on a Connected wrapper every inbound non-text frame is
put through msg.to_text().unwrap(): binary, ping and pong payloads go
through UTF-8 conversion, and when that conversion fails the receive call
crashes on the unwrap instead of returning a recoverable DecodeError; when
it succeeds — and for close frames, which yield their reason string or ""
— the frame is handled exactly like a text frame with that content, and
DecodeError arises only when the content is not valid response JSON. -/
theorem claim_c3 (s : TeamsWebsocket) (c : Nat) (h : s.socket = some c) :
    (∀ data : List Nat, utf8Decode? data = none →
        (s.receive (RecvEvent.frame (WsMessage.binary data))).1 = RecvOutcome.crash ∧
        (s.receive (RecvEvent.frame (WsMessage.ping data))).1 = RecvOutcome.crash ∧
        (s.receive (RecvEvent.frame (WsMessage.pong data))).1 = RecvOutcome.crash) ∧
    (∀ (data : List Nat) (cs : List Char), utf8Decode? data = some cs →
        (s.receive (RecvEvent.frame (WsMessage.binary data))).1
          = (s.receive (RecvEvent.frame (WsMessage.text (String.mk cs)))).1 ∧
        (s.receive (RecvEvent.frame (WsMessage.ping data))).1
          = (s.receive (RecvEvent.frame (WsMessage.text (String.mk cs)))).1 ∧
        (s.receive (RecvEvent.frame (WsMessage.pong data))).1
          = (s.receive (RecvEvent.frame (WsMessage.text (String.mk cs)))).1) ∧
    (∀ r : Option String,
        (s.receive (RecvEvent.frame (WsMessage.close r))).1
          = (s.receive (RecvEvent.frame (WsMessage.text (r.getD "")))).1) := by
  refine ⟨fun data hd => ⟨?_, ?_, ?_⟩, fun data cs hd => ⟨?_, ?_, ?_⟩, fun r => ?_⟩
  · simp [TeamsWebsocket.receive, WsMessage.toText, h, hd]
  · simp [TeamsWebsocket.receive, WsMessage.toText, h, hd]
  · simp [TeamsWebsocket.receive, WsMessage.toText, h, hd]
  · simp [TeamsWebsocket.receive, WsMessage.toText, h, hd]
  · simp [TeamsWebsocket.receive, WsMessage.toText, h, hd]
  · simp [TeamsWebsocket.receive, WsMessage.toText, h, hd]
  · simp [TeamsWebsocket.receive, WsMessage.toText, h]

/-- C3 witness: the amended theorem at the sample Connected wrapper, the
one-byte invalid-UTF-8 payload for each UTF-8-converted frame kind, and a
close frame with a reason. -/
theorem claim_c3_witness :
    sampleConnected.socket = some 0 ∧ utf8Decode? [255] = none ∧
    ((sampleConnected.receive (RecvEvent.frame (WsMessage.binary [255]))).1
        = RecvOutcome.crash ∧
     (sampleConnected.receive (RecvEvent.frame (WsMessage.ping [255]))).1
        = RecvOutcome.crash ∧
     (sampleConnected.receive (RecvEvent.frame (WsMessage.pong [255]))).1
        = RecvOutcome.crash) ∧
    (sampleConnected.receive (RecvEvent.frame (WsMessage.close (some "bye")))).1
      = (sampleConnected.receive (RecvEvent.frame (WsMessage.text
          ((some "bye").getD "")))).1 :=
  ⟨rfl, rfl, (claim_c3 sampleConnected 0 rfl).1 [255] rfl,
   (claim_c3 sampleConnected 0 rfl).2.2 (some "bye")⟩

/-- C4 (counterexample): serializing the none action produces the JSON
string text "none" (quotes included), which differs from the decimal
rendering of its numeric ordinal 0 — refuting the claim that the
zero/none action encodes via its ordinal. -/
theorem claim_c4_counterexample :
    Json.render (MeetingAction.toJson MeetingAction.None) = "\"none\"" ∧
    MeetingAction.ordinal MeetingAction.None = 0 ∧
    Json.render (MeetingAction.toJson MeetingAction.None)
      ≠ toString (MeetingAction.ordinal MeetingAction.None) :=
  ⟨rfl, rfl, by decide⟩

/-- C4 (amended): the zero/none meeting action has no explicit wire-tag
override, but the container-level camelCase rename rule still gives it the
textual tag "none", so when serialized it encodes as that string, not via
its numeric ordinal. -/
theorem claim_c4 : MeetingAction.toJson MeetingAction.None = Json.str "none" := rfl

/-- C5: on a Disconnected wrapper each of send, receive and close fails
with NotConnectedError and returns the wrapper state unchanged in every
field, the request counter included. -/
theorem claim_c5 (s : TeamsWebsocket) (h : s.socket = none) :
    (∀ (m : ClientMessage) (ev : SendEvent),
        s.send m ev = ⟨.error WsError.notConnectedError, s, none, none⟩) ∧
    (∀ ev : RecvEvent, s.receive ev = (.error WsError.notConnectedError, s)) ∧
    (∀ ev : CloseEvent, s.close ev = (.error WsError.notConnectedError, s)) := by
  refine ⟨fun m ev => ?_, fun ev => ?_, fun ev => ?_⟩
  · unfold TeamsWebsocket.send
    rw [h]
  · unfold TeamsWebsocket.receive
    rw [h]
  · unfold TeamsWebsocket.close
    rw [h]

/-- C5 witness: the theorem at the sample Disconnected wrapper. -/
theorem claim_c5_witness :
    sampleDisconnected.socket = none ∧
    sampleDisconnected.send (ClientMessage.new MeetingAction.Mute none) SendEvent.ok
      = ⟨.error WsError.notConnectedError, sampleDisconnected, none, none⟩ ∧
    sampleDisconnected.receive RecvEvent.timeout
      = (.error WsError.notConnectedError, sampleDisconnected) ∧
    sampleDisconnected.close CloseEvent.ok
      = (.error WsError.notConnectedError, sampleDisconnected) :=
  ⟨rfl,
   (claim_c5 sampleDisconnected rfl).1 (ClientMessage.new MeetingAction.Mute none) SendEvent.ok,
   (claim_c5 sampleDisconnected rfl).2.1 RecvEvent.timeout,
   (claim_c5 sampleDisconnected rfl).2.2 CloseEvent.ok⟩

/-- C6: the first command sent on a fresh wrapper, with action
blur-background and no parameters, is encoded exactly as the expected
text. -/
theorem claim_c6 :
    (sampleConnected.send (ClientMessage.new MeetingAction.BlurBackground none)
        SendEvent.ok).encoded
      = some "\x7b\"action\":\"blur-background\",\"parameters\":null,\"requestId\":0\x7d" :=
  rfl

/-- C7: decoding the echoed response text yields request identifier some 0
and the echo string, with the error message, token refresh and meeting
update all absent; and for every top-level response field, a JSON null
value and an absent key decode identically. -/
theorem claim_c7 :
    ServerMessage.fromStr
        "\x7b\"requestId\":0,\"response\":\"Echo: ...\",\"errorMsg\":null,\"tokenRefresh\":null,\"meetingUpdate\":null\x7d"
      = .ok ⟨some 0, some "Echo: ...", none, none, none⟩ ∧
    (∀ (k : String) (fields : List (String × Json)),
        k ∈ smFieldKeys → k ∉ fields.map Prod.fst →
        ServerMessage.deJson (Json.obj (fields ++ [(k, Json.null)]))
          = ServerMessage.deJson (Json.obj fields)) :=
  ⟨rfl, deSM_append_null⟩

/-- C7 witness: the null/absent equivalence at the errorMsg key of a
one-field document. -/
theorem claim_c7_witness :
    "errorMsg" ∈ smFieldKeys ∧
    "errorMsg" ∉ ([("response", Json.str "x")] : List (String × Json)).map Prod.fst ∧
    ServerMessage.deJson (Json.obj ([("response", Json.str "x")] ++ [("errorMsg", Json.null)]))
      = ServerMessage.deJson (Json.obj [("response", Json.str "x")]) :=
  ⟨by decide, by decide,
   claim_c7.2 "errorMsg" [("response", Json.str "x")] (by decide) (by decide)⟩

/-- C8: on a Connected wrapper a receive whose bounded wait (the
10-millisecond constant) elapses with no frame fails with TimeoutError and
leaves every wrapper field, the stored channel handle included, unchanged,
so a subsequent receive runs against the same open channel. -/
theorem claim_c8 (s : TeamsWebsocket) (c : Nat) (h : s.socket = some c) :
    receiveTimeoutMillis = 10 ∧
    (s.receive RecvEvent.timeout).1 = RecvOutcome.error WsError.timeoutError ∧
    (s.receive RecvEvent.timeout).2 = s ∧
    ((s.receive RecvEvent.timeout).2.receive RecvEvent.timeout).1
      = RecvOutcome.error WsError.timeoutError := by
  have hr : s.receive RecvEvent.timeout = (RecvOutcome.error WsError.timeoutError, s) := by
    unfold TeamsWebsocket.receive
    rw [h]
  refine ⟨rfl, by rw [hr], by rw [hr], ?_⟩
  rw [hr]
  show (s.receive RecvEvent.timeout).1 = RecvOutcome.error WsError.timeoutError
  rw [hr]

/-- C8 witness: the theorem at the sample Connected wrapper. -/
theorem claim_c8_witness :
    sampleConnected.socket = some 0 ∧
    (receiveTimeoutMillis = 10 ∧
     (sampleConnected.receive RecvEvent.timeout).1
       = RecvOutcome.error WsError.timeoutError ∧
     (sampleConnected.receive RecvEvent.timeout).2 = sampleConnected ∧
     ((sampleConnected.receive RecvEvent.timeout).2.receive RecvEvent.timeout).1
       = RecvOutcome.error WsError.timeoutError) :=
  ⟨rfl, claim_c8 sampleConnected 0 rfl⟩

/-- C9: the top-level response fields and the two meeting-update
sub-objects are optional (empty objects decode with every such field
absent), but every boolean flag inside a present meetingPermissions object
(all ten) and inside a present meetingState object (all eight) is
required: a response whose sub-object omits any one of its flags fails to
decode as a whole. -/
theorem claim_c9 :
    ServerMessage.deJson (Json.obj []) = .ok ⟨none, none, none, none, none⟩ ∧
    MeetingUpdate.deJson (Json.obj []) = .ok ⟨none, none⟩ ∧
    (∀ (k : String) (fields : List (String × Json)),
        k ∈ mpFieldKeys → k ∉ fields.map Prod.fst →
        exceptIsOk (ServerMessage.deJson (Json.obj
          [("meetingUpdate", Json.obj [("meetingPermissions", Json.obj fields)])])) = false) ∧
    (∀ (k : String) (fields : List (String × Json)),
        k ∈ msFieldKeys → k ∉ fields.map Prod.fst →
        exceptIsOk (ServerMessage.deJson (Json.obj
          [("meetingUpdate", Json.obj [("meetingState", Json.obj fields)])])) = false) := by
  refine ⟨rfl, rfl, fun k fields hk hnot => ?_, fun k fields hk hnot => ?_⟩
  · obtain ⟨e, he⟩ := exceptIsOk_false (deMP_missing_flag k fields hk hnot)
    exact deSM_mu_err _ e (deMU_perm_err fields e he)
  · obtain ⟨e, he⟩ := exceptIsOk_false (deMS_missing_flag k fields hk hnot)
    exact deSM_mu_err _ e (deMU_state_err fields e he)

/-- C9 witness: a response whose meetingPermissions object is empty (so the
canPair flag, among others, is missing) fails to decode. -/
theorem claim_c9_witness :
    "canPair" ∈ mpFieldKeys ∧
    "canPair" ∉ (([] : List (String × Json)).map Prod.fst) ∧
    exceptIsOk (ServerMessage.deJson (Json.obj
      [("meetingUpdate", Json.obj [("meetingPermissions", Json.obj [])])])) = false :=
  ⟨by decide, by decide, claim_c9.2.2.1 "canPair" [] (by decide) (by decide)⟩

/-- C10: the request counter is an i32 that send increments with no
overflow guard: for every counter value strictly below 2^31 - 1 the
increment is exact, and a send issued with the counter at 2^31 - 1 wraps
it to -2^31 instead of assigning the next identifier. -/
theorem claim_c10 :
    (∀ (s : TeamsWebsocket) (c : Nat) (m : ClientMessage) (ev : SendEvent),
        s.socket = some c → -(2 ^ 31) ≤ s.request_id → s.request_id < 2 ^ 31 - 1 →
        (s.send m ev).state.request_id = s.request_id + 1) ∧
    (∀ (s : TeamsWebsocket) (c : Nat) (m : ClientMessage) (ev : SendEvent),
        s.socket = some c → s.request_id = 2 ^ 31 - 1 →
        (s.send m ev).state.request_id = -(2 ^ 31) ∧
        (s.send m ev).state.request_id ≠ s.request_id + 1) := by
  constructor
  · intro s c m ev h hlo hhi
    rw [(send_connected_fields s c m ev h).2.2.1]
    show wrap32 (s.request_id + 1) = s.request_id + 1
    exact wrap32_eq_self (by linarith) (by linarith)
  · intro s c m ev h he
    rw [(send_connected_fields s c m ev h).2.2.1]
    constructor
    · show wrap32 (s.request_id + 1) = -(2 ^ 31)
      rw [he]
      norm_num [wrap32]
    · show wrap32 (s.request_id + 1) ≠ s.request_id + 1
      rw [he]
      norm_num [wrap32]

/-- C10 witness: the exact increment at counter 0 and the wrap at the i32
maximum, on concrete wrappers. -/
theorem claim_c10_witness :
    (sampleConnected.socket = some 0 ∧ -(2 ^ 31) ≤ sampleConnected.request_id ∧
     sampleConnected.request_id < 2 ^ 31 - 1 ∧
     (sampleConnected.send (ClientMessage.new MeetingAction.Mute none)
         SendEvent.ok).state.request_id = sampleConnected.request_id + 1) ∧
    (nearOverflow.socket = some 0 ∧ nearOverflow.request_id = 2 ^ 31 - 1 ∧
     ((nearOverflow.send (ClientMessage.new MeetingAction.Mute none)
          SendEvent.ok).state.request_id = -(2 ^ 31) ∧
      (nearOverflow.send (ClientMessage.new MeetingAction.Mute none)
          SendEvent.ok).state.request_id ≠ nearOverflow.request_id + 1)) :=
  ⟨⟨rfl, by decide, by decide,
    claim_c10.1 sampleConnected 0 (ClientMessage.new MeetingAction.Mute none)
      SendEvent.ok rfl (by decide) (by decide)⟩,
   ⟨rfl, rfl,
    claim_c10.2 nearOverflow 0 (ClientMessage.new MeetingAction.Mute none)
      SendEvent.ok rfl rfl⟩⟩
